import Mathlib

/-!
Shallow embedding of the ArchFairFight Challenge/Fight Orchestration Engine
(`archfairfight/challenge/state_machine.py`, `archfairfight/challenge/manager.py`,
`archfairfight/ai/winner_detector.py`, `archfairfight/database/operations.py`,
`archfairfight/database/models.py`) together with theorems settling the
specification claims about it.

Modelling conventions:
* Python `datetime` values are modelled as `Nat` clock readings, passed
  explicitly to the operations that call `datetime.utcnow()`.
* Python numbers are modelled as `ℚ`; a dictionary value that is not a number
  (and therefore makes Python arithmetic/comparison raise `TypeError`) is
  modelled by the constructor `PyValue.other`.
* Python dictionaries of metrics are association lists; `mget` mirrors
  `dict.get(key, default)`.
* `async` methods have no concurrency-relevant behaviour inside the functions
  embedded here; they are embedded as pure functions on explicit state.
-/

set_option allowUnsafeReducibility true
attribute [semireducible] Rat.mul Rat.inv Rat.sub Rat.add Rat.div Rat.neg

namespace ArchFairFight

/-- The `ChallengeState` enumeration of `state_machine.py`. -/
inductive ChallengeState where
  | CREATED
  | SENT
  | ACCEPTED
  | DECLINED
  | FIGHT_TYPE_SELECTED
  | PARTICIPANTS_JOINING
  | FIGHT_ACTIVE
  | FIGHT_FINISHED
  | EXPIRED
  | CANCELLED
deriving DecidableEq, Repr

/-- `ChallengeStateMachine.VALID_TRANSITIONS`: the fixed adjacency table of
`state_machine.py` (lines 31-63), with the four terminal states mapped to the
empty set. -/
def VALID_TRANSITIONS : ChallengeState → List ChallengeState
  | .CREATED => [.SENT, .CANCELLED]
  | .SENT => [.ACCEPTED, .DECLINED, .EXPIRED, .CANCELLED]
  | .ACCEPTED => [.FIGHT_TYPE_SELECTED, .CANCELLED]
  | .FIGHT_TYPE_SELECTED => [.PARTICIPANTS_JOINING, .CANCELLED]
  | .PARTICIPANTS_JOINING => [.FIGHT_ACTIVE, .EXPIRED, .CANCELLED]
  | .FIGHT_ACTIVE => [.FIGHT_FINISHED, .CANCELLED]
  | .FIGHT_FINISHED => []
  | .EXPIRED => []
  | .DECLINED => []
  | .CANCELLED => []

/-- A `ChallengeStateMachine` instance: `current_state` plus the append-only
`state_history` of `(state, timestamp)` pairs. -/
structure ChallengeStateMachine where
  current_state : ChallengeState
  state_history : List (ChallengeState × Nat)
deriving DecidableEq, Repr

/-- `ChallengeStateMachine.__init__`: starts at `initial_state` with a
single-entry history stamped with the current clock. -/
def mkStateMachine (initial_state : ChallengeState) (now : Nat) : ChallengeStateMachine :=
  { current_state := initial_state, state_history := [(initial_state, now)] }

/-- `ChallengeStateMachine.can_transition_to`: membership of the target in
`VALID_TRANSITIONS[current_state]`. -/
def can_transition_to (sm : ChallengeStateMachine) (new_state : ChallengeState) : Bool :=
  (VALID_TRANSITIONS sm.current_state).contains new_state

/-- `ChallengeStateMachine.transition_to` (lines 75-95): returns the boolean
result returned to the caller together with the machine afterwards.  On a
rejected transition the machine is returned unchanged (the source only logs);
on success the state is replaced and `(new_state, now)` is appended to the
history. -/
def transition_to (sm : ChallengeStateMachine) (now : Nat) (new_state : ChallengeState) :
    Bool × ChallengeStateMachine :=
  if can_transition_to sm new_state then
    (true, { current_state := new_state,
             state_history := sm.state_history ++ [(new_state, now)] })
  else
    (false, sm)

/-- `ChallengeStateMachine.get_time_in_state`: seconds between the last
history entry's timestamp and now (0 for an empty history). -/
def get_time_in_state (sm : ChallengeStateMachine) (now : Nat) : Nat :=
  match sm.state_history.getLast? with
  | some e => now - e.2
  | none => 0

/-- A state machine state reachable from the initial `CREATED` state by
transitions of the adjacency table. -/
inductive Reachable : ChallengeState → Prop where
  | init : Reachable .CREATED
  | step {s t : ChallengeState} : Reachable s → t ∈ VALID_TRANSITIONS s → Reachable t

/-- The `FightResult` enumeration of `database/models.py`. -/
inductive FightResult where
  | WIN
  | LOSS
  | DRAW
  | NO_SHOW
  | CANCELLED
deriving DecidableEq, Repr

/-- The `FightType` enumeration of `database/models.py` (its only members are
`TIMING` and `VOLUME`). -/
inductive FightType where
  | TIMING
  | VOLUME
deriving DecidableEq, Repr

/-- The `ChallengeStatus` enumeration of `database/models.py`. -/
inductive ChallengeStatus where
  | PENDING
  | ACCEPTED
  | DECLINED
  | IN_PROGRESS
  | COMPLETED
  | CANCELLED
  | EXPIRED
deriving DecidableEq, Repr

/-- A value stored in a Python metrics dictionary: a number (`num`), or any
non-numeric object (`other`), on which Python arithmetic and order comparisons
raise `TypeError`. -/
inductive PyValue where
  | num (q : ℚ)
  | other
deriving DecidableEq, Repr

/-- A metrics bag: a Python dict modelled as an association list. -/
abbrev Metrics := List (String × PyValue)

/-- `dict.get(key, default)`: the first binding of `key`, else `default`. -/
def mget (m : Metrics) (key : String) (default : PyValue) : PyValue :=
  match m.find? (fun p => p.1 == key) with
  | some p => p.2
  | none => default

/-- The dynamically-typed `fight_type` argument of
`WinnerDetector.determine_winner`: the two `FightType` members, or any other
runtime value (which falls into the function's `else` branch). -/
inductive FightTypeValue where
  | timing
  | volume
  | unknown (s : String)
deriving DecidableEq, Repr

/-- `WinnerDetector._analyze_timing_fight` (winner_detector.py lines 43-66):
reads `total_join_time` with default 0 from both bags; a draw when the
absolute difference is below the hard-coded 5, otherwise the larger value
wins.  A non-numeric value makes `abs(p1 - p2)` raise; the exception is
caught and the draw outcome returned. -/
def analyze_timing_fight (p1_metrics p2_metrics : Metrics) :
    Option ℕ × FightResult × FightResult :=
  match mget p1_metrics "total_join_time" (.num 0),
      mget p2_metrics "total_join_time" (.num 0) with
  | .num p1_join_time, .num p2_join_time =>
    if |p1_join_time - p2_join_time| < 5 then (none, .DRAW, .DRAW)
    else if p1_join_time > p2_join_time then (some 1, .WIN, .LOSS)
    else (some 2, .LOSS, .WIN)
  | _, _ => (none, .DRAW, .DRAW)

/-- `WinnerDetector._calculate_activity_score` (lines 93-115).  Defaults:
`speak_time` 0, `average_volume` 0, `total_join_time` **1**.  The speaking
percentage is `speak_time / total_join_time` when `total_join_time > 0`, else
0; the score is `percentage * 0.7 + (average_volume / 10000) * 0.3`.  A
non-numeric `total_join_time` raises at the `> 0` comparison, a non-numeric
`speak_time` raises at the division (only when it is reached), a non-numeric
`average_volume` raises at the final arithmetic; every exception is caught
and 0.0 returned. -/
def calculate_activity_score (metrics : Metrics) : ℚ :=
  match mget metrics "total_join_time" (.num 1) with
  | .other => 0
  | .num total_join_time =>
    if total_join_time > 0 then
      match mget metrics "speak_time" (.num 0) with
      | .other => 0
      | .num speak_time =>
        match mget metrics "average_volume" (.num 0) with
        | .other => 0
        | .num average_volume =>
          speak_time / total_join_time * (7/10) + average_volume / 10000 * (3/10)
    else
      match mget metrics "average_volume" (.num 0) with
      | .other => 0
      | .num average_volume => 0 * (7/10) + average_volume / 10000 * (3/10)

/-- `WinnerDetector._analyze_volume_fight` (lines 68-91): compares the two
activity scores against `config.volume_threshold` (passed here explicitly as
`volume_threshold`, since the configuration module is not part of the
orchestration sources): below the threshold a draw, otherwise the higher
score wins. -/
def analyze_volume_fight (volume_threshold : ℚ) (p1_metrics p2_metrics : Metrics) :
    Option ℕ × FightResult × FightResult :=
  let p1_score := calculate_activity_score p1_metrics
  let p2_score := calculate_activity_score p2_metrics
  if |p1_score - p2_score| < volume_threshold then (none, .DRAW, .DRAW)
  else if p1_score > p2_score then (some 1, .WIN, .LOSS)
  else (some 2, .LOSS, .WIN)

/-- `WinnerDetector.determine_winner` (lines 20-41): dispatches on the fight
type; any unrecognized value reaches the `else` branch and yields the
no-winner draw outcome. -/
def determine_winner (volume_threshold : ℚ) (fight_type : FightTypeValue)
    (participant1_metrics participant2_metrics : Metrics) :
    Option ℕ × FightResult × FightResult :=
  match fight_type with
  | .timing => analyze_timing_fight participant1_metrics participant2_metrics
  | .volume => analyze_volume_fight volume_threshold participant1_metrics participant2_metrics
  | .unknown _ => (none, .DRAW, .DRAW)

/-- The fields of the `Fight` model (`database/models.py`) that the
orchestration claims observe, as they sit in a stored document.  `datetime`
timestamps are `Nat` clock values; `ended_at` is an `Option` because
`finish_fight`'s `$set` can add the field to a document that lacks it. -/
structure FightDoc where
  participant1_id : Int
  participant2_id : Int
  fight_type : Option FightType
  duration : Int
  winner_id : Option Int
  participant1_result : FightResult
  participant2_result : FightResult
  participant1_metrics : Metrics
  participant2_metrics : Metrics
  group_call_id : String
  started_at : Nat
  ended_at : Option Nat
deriving DecidableEq, Repr

/-- The `Fight(...)` pydantic construction with the keyword arguments of
`ChallengeManager.start_fight` (manager.py lines 87-98): participants from
the challenge, `duration=0`, `participant1_result=WIN` and
`participant2_result=LOSS` as explicit "temporary" placeholders, empty
`group_call_id`, `started_at=now`; the model defaults supply
`winner_id=None` and empty metrics bags.  pydantic validation requires every
field declared `Field(...)` with no default: `fight_type` (models.py line
131) must be an actual `FightType` (the challenge's is `Optional`), and
`ended_at` (line 152) must be supplied — the `fight_type` and `ended_at`
parameters here are those two keyword arguments, `none` when the caller
omits one.  A failed validation raises `ValidationError` (`none` here),
which `start_fight`'s `except` clause turns into a `False` return with
nothing persisted. -/
def create_fight (challenger_id opponent_id : Int) (fight_type : Option FightType)
    (now : Nat) (ended_at : Option Nat) : Option FightDoc :=
  match fight_type, ended_at with
  | some ft, some e =>
    some { participant1_id := challenger_id
           participant2_id := opponent_id
           fight_type := some ft
           duration := 0
           winner_id := none
           participant1_result := .WIN
           participant2_result := .LOSS
           participant1_metrics := []
           participant2_metrics := []
           group_call_id := ""
           started_at := now
           ended_at := some e }
  | _, _ => none

/-- The `Fight(...)` construction exactly as `start_fight` performs it: the
keyword arguments listed at manager.py lines 88-98 and no `ended_at`. -/
def start_fight_create (challenger_id opponent_id : Int)
    (fight_type : Option FightType) (now : Nat) : Option FightDoc :=
  create_fight challenger_id opponent_id fight_type now none

/-- `FightOps.update_fight_metrics` (operations.py lines 231-252): writes the
bag into `participant1_metrics` when the given id equals `participant1_id`,
else into `participant2_metrics`; a `$set` on that one field only. -/
def update_fight_metrics (fight : FightDoc) (participant_id : Int) (metrics : Metrics) :
    FightDoc :=
  if participant_id == fight.participant1_id then
    { fight with participant1_metrics := metrics }
  else
    { fight with participant2_metrics := metrics }

/-- `FightOps.finish_fight` (operations.py lines 254-275): a `$set` of exactly
`winner_id`, the two results and `ended_at := now`; no other field (in
particular not `duration`) is written, and nothing guards against the fight
having been finished already. -/
def finish_fight (fight : FightDoc) (winner_id : Option Int)
    (participant1_result participant2_result : FightResult) (now : Nat) : FightDoc :=
  { fight with
      winner_id := winner_id
      participant1_result := participant1_result
      participant2_result := participant2_result
      ended_at := some now }

/-- The aggregate statistics counters of the `User` model. -/
structure UserStats where
  total_fights : Int
  wins : Int
  losses : Int
  draws : Int
deriving DecidableEq, Repr

/-- `UserOps.update_user_stats` (operations.py lines 66-84): a Mongo `$inc`
of the four counters by the given deltas. -/
def update_user_stats (s : UserStats) (wins losses draws total_fights : Int) : UserStats :=
  { total_fights := s.total_fights + total_fights
    wins := s.wins + wins
    losses := s.losses + losses
    draws := s.draws + draws }

/-- The winner computation inlined in `ChallengeManager._end_fight_with_results`
(manager.py lines 227-270).  The code initialises `winner_id=None`,
`participant1_result=LOSS`, `participant2_result=WIN`; a `TIMING` fight
strictly compares the bags' `join_time` values, a `VOLUME` fight strictly
compares the `speak_time * volume_sum` products; a missing fight type leaves
the initial values.  A comparison on a non-numeric value raises, which the
method's `except` clause routes to `_end_fight_error` (`errored` here). -/
inductive ManagerOutcome where
  | decided (winner_id : Option Int) (participant1_result participant2_result : FightResult)
  | errored
deriving DecidableEq, Repr

/-- The winner/result computation of `_end_fight_with_results`, as a function
of the challenger and opponent ids, the challenge's fight type and the two
last-sampled metrics bags. -/
def manager_compute_winner (challenger_id opponent_id : Int) (fight_type : Option FightType)
    (participant1_metrics participant2_metrics : Metrics) : ManagerOutcome :=
  match fight_type with
  | some .TIMING =>
    match mget participant1_metrics "join_time" (.num 0),
        mget participant2_metrics "join_time" (.num 0) with
    | .num p1_time, .num p2_time =>
      if p1_time > p2_time then .decided (some challenger_id) .WIN .LOSS
      else if p2_time > p1_time then .decided (some opponent_id) .LOSS .WIN
      else .decided none .DRAW .DRAW
    | _, _ => .errored
  | some .VOLUME =>
    match mget participant1_metrics "speak_time" (.num 0),
        mget participant1_metrics "volume_sum" (.num 0),
        mget participant2_metrics "speak_time" (.num 0),
        mget participant2_metrics "volume_sum" (.num 0) with
    | .num s1, .num v1, .num s2, .num v2 =>
      if s1 * v1 > s2 * v2 then .decided (some challenger_id) .WIN .LOSS
      else if s2 * v2 > s1 * v1 then .decided (some opponent_id) .LOSS .WIN
      else .decided none .DRAW .DRAW
    | _, _, _, _ => .errored
  | none => .decided none .LOSS .WIN

/-- The persistence-visible state the finalization routines of
`ChallengeManager` act on: the fight document, the two participants'
statistics rows and the challenge's durable status. -/
structure OrchestratorDb where
  fight : FightDoc
  challenger_stats : UserStats
  opponent_stats : UserStats
  challenge_status : ChallengeStatus
deriving DecidableEq, Repr

/-- `ChallengeManager._end_fight_error` (manager.py lines 308-332):
`finish_fight` with no winner and both results `CANCELLED`, then the
challenge status set to `CANCELLED`.  (It also transitions the in-memory
state machine and stops recording; those effects are modelled separately.) -/
def end_fight_error (db : OrchestratorDb) (now : Nat) : OrchestratorDb :=
  { db with
      fight := finish_fight db.fight none .CANCELLED .CANCELLED now
      challenge_status := .CANCELLED }

/-- `ChallengeManager._end_fight_with_results` (manager.py lines 219-306),
restricted to its persistence effects: compute the winner inline, write it
with `finish_fight`, apply the per-branch `update_user_stats` increments
(`wins=1,total_fights=1` / `losses=1,total_fights=1` / `draws=1,total_fights=1`),
and mark the challenge `COMPLETED`.  A raised comparison is routed to
`_end_fight_error`. -/
def end_fight_with_results (db : OrchestratorDb)
    (participant1_metrics participant2_metrics : Metrics) (now : Nat) : OrchestratorDb :=
  match manager_compute_winner db.fight.participant1_id db.fight.participant2_id
      db.fight.fight_type participant1_metrics participant2_metrics with
  | .errored => end_fight_error db now
  | .decided winner_id participant1_result participant2_result =>
    let db := { db with
      fight := finish_fight db.fight winner_id participant1_result participant2_result now }
    let db :=
      if participant1_result = .WIN then
        { db with
            challenger_stats := update_user_stats db.challenger_stats 1 0 0 1
            opponent_stats := update_user_stats db.opponent_stats 0 1 0 1 }
      else if participant2_result = .WIN then
        { db with
            challenger_stats := update_user_stats db.challenger_stats 0 1 0 1
            opponent_stats := update_user_stats db.opponent_stats 1 0 0 1 }
      else
        { db with
            challenger_stats := update_user_stats db.challenger_stats 0 0 1 1
            opponent_stats := update_user_stats db.opponent_stats 0 0 1 1 }
    { db with challenge_status := .COMPLETED }

/-- `ChallengeManager._end_fight_no_show` (manager.py lines 196-217):
`finish_fight` with no winner and both results `NO_SHOW`, then the challenge
status set to `COMPLETED`.  It is reached without any call into the winner
determination code (its output is fixed, independent of any metrics), and
the in-memory state machine is handled separately by
`transition_to … FIGHT_FINISHED`. -/
def end_fight_no_show (db : OrchestratorDb) (now : Nat) : OrchestratorDb :=
  { db with
      fight := finish_fight db.fight none .NO_SHOW .NO_SHOW now
      challenge_status := .COMPLETED }

/-- The in-memory sweep half of `ChallengeManager.expire_old_challenges`
(manager.py lines 334-353): every entry whose `get_time_in_state` exceeds
`3 * challenge_timeout` is deleted from the active-challenge table (after a
`transition_to EXPIRED` attempt on its machine, whose effect on the discarded
machine is `expired_machine`). -/
def expire_old_challenges_mem (challenge_timeout now : Nat)
    (active_challenges : List (String × ChallengeStateMachine)) :
    List (String × ChallengeStateMachine) :=
  active_challenges.filter (fun e => !(get_time_in_state e.2 now > 3 * challenge_timeout))

/-- The machine an expired entry holds when `expire_old_challenges` discards
it: the result of its `transition_to(EXPIRED)` attempt. -/
def expired_machine (sm : ChallengeStateMachine) (now : Nat) : ChallengeStateMachine :=
  (transition_to sm now .EXPIRED).2

/-- The exits the monitoring routine `ChallengeManager._monitor_fight`
(manager.py lines 116-194) can take: the no-show return (line 138), the
normal sampling-loop exit into `_end_fight_with_results` (lines 186-190),
an exception caught by the routine's `except Exception` clause (lines
192-194), and cancellation of the task by `cancel_challenge` (line 361) at a
suspension point inside the sampling loop — `asyncio.CancelledError` derives
from `BaseException`, so the `except Exception` clause does not intercept it
and the routine unwinds without running any finalizer. -/
inductive MonitorExit where
  | noShow
  | loopExit
  | internalError
  | cancelledMidLoop
deriving DecidableEq, Repr

/-- How many times the routine calls `recording_manager.stop_recording` on
each exit path: once at the top of `_end_fight_with_results` (line 225), once
in `_end_fight_error` (line 327), and never on the no-show return or when the
task is cancelled mid-loop (no `try/finally` protects the resources). -/
def stop_recording_calls : MonitorExit → Nat
  | .noShow => 0
  | .loopExit => 1
  | .internalError => 1
  | .cancelledMidLoop => 0

/-- How many times the routine releases the session workers
(`userbot_manager.cleanup_fight`) on each exit path: only
`_end_fight_with_results` calls it (line 299); `_end_fight_no_show`,
`_end_fight_error` and a cancelled task never do. -/
def pool_release_calls : MonitorExit → Nat
  | .noShow => 0
  | .loopExit => 1
  | .internalError => 0
  | .cancelledMidLoop => 0

/-- A metrics bag with a `total_join_time` entry, the key
`_analyze_timing_fight` reads as the presence duration. -/
def timing_bag (duration : ℚ) : Metrics := [("total_join_time", .num duration)]

/-- A metrics bag with the three entries `_calculate_activity_score` reads:
time active (`speak_time`), time present (`total_join_time`) and amplitude
(`average_volume`). -/
def activity_bag (speak_time total_join_time average_volume : ℚ) : Metrics :=
  [("speak_time", .num speak_time), ("average_volume", .num average_volume),
   ("total_join_time", .num total_join_time)]

/-- A metrics bag of the shape `_monitor_fight` samples and hands to
`_end_fight_with_results` (manager.py lines 155-156): keys `join_time`,
`speak_time` and `volume_sum`. -/
def monitor_bag (join_time speak_time volume_sum : ℚ) : Metrics :=
  [("join_time", .num join_time), ("speak_time", .num speak_time),
   ("volume_sum", .num volume_sum)]

/-- The `(participant1_result, participant2_result)` pair a `ManagerOutcome`
persists through `finish_fight` (`none` when the error path replaces them
with the CANCELLED pair). -/
def results_of : ManagerOutcome → Option (FightResult × FightResult)
  | .decided _ r1 r2 => some (r1, r2)
  | .errored => none

/-- A state machine driven from `CREATED` through `SENT` to `ACCEPTED` by
`transition_to`, as the lifecycle does when a challenge is accepted: a
machine whose current state is reachable. -/
def sm_accepted : ChallengeStateMachine :=
  (transition_to (transition_to (mkStateMachine .CREATED 0) 1 .SENT).2 2 .ACCEPTED).2

/-- A stored fight document holding the placeholder values `start_fight`
names for a TIMING fight between users 1 and 2 — how the document came to
exist is immaterial to the finalization routines, which only read its
participant ids and fight type. -/
def fresh_timing_fight : FightDoc :=
  { participant1_id := 1
    participant2_id := 2
    fight_type := some .TIMING
    duration := 0
    winner_id := none
    participant1_result := .WIN
    participant2_result := .LOSS
    participant1_metrics := []
    participant2_metrics := []
    group_call_id := ""
    started_at := 0
    ended_at := none }

/-- A persisted state with an unfinalized TIMING fight between users 1 and 2
and zeroed statistics rows: the input of the double-finalization
experiment. -/
def fresh_timing_db : OrchestratorDb :=
  { fight := fresh_timing_fight
    challenger_stats := ⟨0, 0, 0, 0⟩
    opponent_stats := ⟨0, 0, 0, 0⟩
    challenge_status := .IN_PROGRESS }

/-! ## Theorems settling the claims -/

/-- Helper: the state a machine reports after any `transition_to` attempt is
the target on a legal edge and the old state otherwise. -/
theorem transition_result_state (sm : ChallengeStateMachine) (now : Nat)
    (t : ChallengeState) :
    (transition_to sm now t).2.current_state =
      if t ∈ VALID_TRANSITIONS sm.current_state then t else sm.current_state := by
  unfold transition_to
  by_cases hc : can_transition_to sm t = true
  · rw [if_pos hc, if_pos (by simpa [can_transition_to] using hc)]
  · rw [if_neg hc, if_neg (fun hmem => hc (by simpa [can_transition_to] using hmem))]

/-- Claim C1: for every state S and target T, `transition_to(T)` on a machine
in state S succeeds iff T is in S's allowed-target set of the fixed adjacency
table (CREATED→{SENT,CANCELLED}; SENT→{ACCEPTED,DECLINED,EXPIRED,CANCELLED};
ACCEPTED→{FIGHT_TYPE_SELECTED,CANCELLED};
FIGHT_TYPE_SELECTED→{PARTICIPANTS_JOINING,CANCELLED};
PARTICIPANTS_JOINING→{FIGHT_ACTIVE,EXPIRED,CANCELLED};
FIGHT_ACTIVE→{FIGHT_FINISHED,CANCELLED}; the four terminal states have no
targets), and after a rejected transition the reported current state still
equals S and no entry was appended to the history. -/
theorem transition_to_succeeds_iff_edge (sm : ChallengeStateMachine)
    (T : ChallengeState) (now : Nat) :
    ((transition_to sm now T).1 = true ↔ T ∈ VALID_TRANSITIONS sm.current_state) ∧
    ((transition_to sm now T).1 = false →
      (transition_to sm now T).2.current_state = sm.current_state ∧
      (transition_to sm now T).2.state_history = sm.state_history) ∧
    (VALID_TRANSITIONS .CREATED = [.SENT, .CANCELLED] ∧
      VALID_TRANSITIONS .SENT = [.ACCEPTED, .DECLINED, .EXPIRED, .CANCELLED] ∧
      VALID_TRANSITIONS .ACCEPTED = [.FIGHT_TYPE_SELECTED, .CANCELLED] ∧
      VALID_TRANSITIONS .FIGHT_TYPE_SELECTED = [.PARTICIPANTS_JOINING, .CANCELLED] ∧
      VALID_TRANSITIONS .PARTICIPANTS_JOINING = [.FIGHT_ACTIVE, .EXPIRED, .CANCELLED] ∧
      VALID_TRANSITIONS .FIGHT_ACTIVE = [.FIGHT_FINISHED, .CANCELLED] ∧
      VALID_TRANSITIONS .FIGHT_FINISHED = [] ∧ VALID_TRANSITIONS .EXPIRED = [] ∧
      VALID_TRANSITIONS .DECLINED = [] ∧ VALID_TRANSITIONS .CANCELLED = []) := by
  have hiff : (can_transition_to sm T = true) ↔ T ∈ VALID_TRANSITIONS sm.current_state := by
    simp [can_transition_to]
  by_cases hc : can_transition_to sm T = true
  · refine ⟨?_, ?_, by decide⟩
    · simpa [transition_to, hc] using hiff.mp hc
    · simp [transition_to, hc]
  · refine ⟨?_, ?_, by decide⟩
    · simp only [transition_to, hc]
      simpa [hc] using fun hmem => absurd (hiff.mpr hmem) hc
    · intro _
      simp [transition_to, hc]

/-- Claim C10 (evaluation of the code's fight creation): the `Fight(...)`
construction in `start_fight` never validates — `ended_at` is a required
field of the model and the call does not supply it (and a challenge with no
chosen fight type would be a second failure) — so no successful
`start_fight` call exists and no placeholder record is ever persisted; had
validation passed, the supplied keywords would indeed have carried the
placeholder outcome WIN/LOSS, no winner, duration 0 and an empty session
reference. -/
theorem start_fight_never_persists (challenger_id opponent_id : Int)
    (fight_type : FightType) (now e : Nat) :
    start_fight_create challenger_id opponent_id (some fight_type) now = none ∧
    start_fight_create challenger_id opponent_id none now = none ∧
    (create_fight challenger_id opponent_id (some fight_type) now (some e)).map
        (fun d => (d.participant1_result, d.participant2_result, d.winner_id,
          d.duration, d.group_call_id)) =
      some (.WIN, .LOSS, none, 0, "") :=
  ⟨rfl, rfl, rfl⟩

/-- Claim C6 (evaluation of the code's no-show path): both results are
NO_SHOW with no winner, the challenge is COMPLETED and winner determination
is never consulted, but the FIGHT_FINISHED transition is rejected — the
machine sits at PARTICIPANTS_JOINING, whose allowed targets exclude
FIGHT_FINISHED — and the persisted duration keeps its creation placeholder
instead of the join deadline, since `finish_fight` never writes `duration`. -/
theorem no_show_path_behaviour (db : OrchestratorDb)
    (hist : List (ChallengeState × Nat)) (now : Nat) :
    (end_fight_no_show db now).fight.participant1_result = .NO_SHOW ∧
    (end_fight_no_show db now).fight.participant2_result = .NO_SHOW ∧
    (end_fight_no_show db now).fight.winner_id = none ∧
    (end_fight_no_show db now).challenge_status = .COMPLETED ∧
    (transition_to ⟨.PARTICIPANTS_JOINING, hist⟩ now .FIGHT_FINISHED).1 = false ∧
    (transition_to ⟨.PARTICIPANTS_JOINING, hist⟩ now .FIGHT_FINISHED).2.current_state =
      .PARTICIPANTS_JOINING ∧
    (end_fight_no_show db now).fight.duration = db.fight.duration :=
  ⟨rfl, rfl, rfl, rfl, rfl, rfl, rfl⟩

/-- Claim C7 (evaluation of the code's finalization): running
`_end_fight_with_results` a second time for the same fight re-applies every
statistics increment — `finish_fight` carries no already-finished guard — so
the challenger's total_fights counter reads 1 after one run and 2 after two,
against the exactly-once contract. -/
theorem finalize_twice_double_increments :
    (end_fight_with_results fresh_timing_db (monitor_bag 100 0 0) (monitor_bag 103 0 0)
        50).challenger_stats.total_fights = 1 ∧
    (end_fight_with_results fresh_timing_db (monitor_bag 100 0 0) (monitor_bag 103 0 0)
        50).opponent_stats.wins = 1 ∧
    (end_fight_with_results
        (end_fight_with_results fresh_timing_db (monitor_bag 100 0 0) (monitor_bag 103 0 0) 50)
        (monitor_bag 100 0 0) (monitor_bag 103 0 0) 60).challenger_stats.total_fights = 2 ∧
    (end_fight_with_results
        (end_fight_with_results fresh_timing_db (monitor_bag 100 0 0) (monitor_bag 103 0 0) 50)
        (monitor_bag 100 0 0) (monitor_bag 103 0 0) 60).opponent_stats.wins = 2 := by
  decide

/-- Claim C9 (evaluation of the code's cleanup discipline): a monitoring task
cancelled inside the sampling loop performs zero stop-recording and zero
pool-release calls — `asyncio.CancelledError` is not an `Exception` and no
`finally` block guards the resources — against the claimed exactly one of
each; even the non-cancellation error path never releases the pool. -/
theorem cancellation_cleanup_counts :
    stop_recording_calls .cancelledMidLoop = 0 ∧
    pool_release_calls .cancelledMidLoop = 0 ∧
    stop_recording_calls .loopExit = 1 ∧
    pool_release_calls .loopExit = 1 ∧
    stop_recording_calls .internalError = 1 ∧
    pool_release_calls .internalError = 0 :=
  ⟨rfl, rfl, rfl, rfl, rfl, rfl⟩

/-- Claim C3: the timing contest yields a draw iff |a − b| < 5 (the
hard-coded draw threshold), and otherwise the participant with the larger
presence duration wins, with WIN/LOSS assigned accordingly; in particular
durations (100, 103) yield a draw and (100, 110) a win for participant 2. -/
theorem timing_contest_draw_threshold :
    (∀ a b : ℚ,
      (analyze_timing_fight (timing_bag a) (timing_bag b) = (none, .DRAW, .DRAW) ↔
        |a - b| < 5) ∧
      (¬ |a - b| < 5 → a > b →
        analyze_timing_fight (timing_bag a) (timing_bag b) = (some 1, .WIN, .LOSS)) ∧
      (¬ |a - b| < 5 → b > a →
        analyze_timing_fight (timing_bag a) (timing_bag b) = (some 2, .LOSS, .WIN))) ∧
    analyze_timing_fight (timing_bag 100) (timing_bag 103) = (none, .DRAW, .DRAW) ∧
    analyze_timing_fight (timing_bag 100) (timing_bag 110) = (some 2, .LOSS, .WIN) := by
  refine ⟨?_, by decide, by decide⟩
  intro a b
  have hbag : analyze_timing_fight (timing_bag a) (timing_bag b) =
      if |a - b| < 5 then (none, .DRAW, .DRAW)
      else if a > b then (some 1, .WIN, .LOSS) else (some 2, .LOSS, .WIN) := rfl
  rw [hbag]
  by_cases h : |a - b| < 5
  · simp [h]
  · by_cases hab : a > b
    · simp [h, hab]
      exact le_of_lt hab
    · simp [h, hab]

/-- Claim C4 counterexample: with presence duration 0 and amplitude 5000 the
activity score is 3/20, not the 0 the claim asserts for zero presence — the
amplitude component of the score survives a zero presence duration. -/
theorem zero_presence_score_counterexample :
    calculate_activity_score (activity_bag 0 0 5000) = 3/20 ∧
    calculate_activity_score (activity_bag 0 0 5000) ≠ 0 := by
  decide

/-- Claim C4 amended: the activity score equals
0.7·(active_time/presence_duration) + 0.3·(average_amplitude/10000) whenever
presence_duration > 0, and 0.3·(average_amplitude/10000) — not 0 — when
presence_duration is 0 or negative; the claim's concrete scores 1/2 and
11/75 hold, their gap is 53/150 ≈ 0.353, and for every draw threshold at
most 53/150 participant 1 wins that volume contest. -/
theorem activity_score_formula (active presence amplitude : ℚ) :
    (presence > 0 → calculate_activity_score (activity_bag active presence amplitude) =
      active / presence * (7/10) + amplitude / 10000 * (3/10)) ∧
    (¬ presence > 0 → calculate_activity_score (activity_bag active presence amplitude) =
      amplitude / 10000 * (3/10)) ∧
    calculate_activity_score (activity_bag 30 60 5000) = 1/2 ∧
    calculate_activity_score (activity_bag 10 60 1000) = 11/75 ∧
    (∀ volume_threshold : ℚ, volume_threshold ≤ 53/150 →
      analyze_volume_fight volume_threshold (activity_bag 30 60 5000)
        (activity_bag 10 60 1000) = (some 1, .WIN, .LOSS)) := by
  have hit : calculate_activity_score (activity_bag active presence amplitude) =
      if presence > 0 then active / presence * (7/10) + amplitude / 10000 * (3/10)
      else 0 * (7/10) + amplitude / 10000 * (3/10) := rfl
  refine ⟨fun h => by rw [hit]; simp [h], fun h => by rw [hit]; simp [h],
    by decide, by decide, ?_⟩
  intro volume_threshold hthr
  have h1 : calculate_activity_score (activity_bag 30 60 5000) = 1/2 := by decide
  have h2 : calculate_activity_score (activity_bag 10 60 1000) = 11/75 := by decide
  have hgap : |(1:ℚ)/2 - 11/75| = 53/150 := by decide
  have hlt : ¬ |(1:ℚ)/2 - 11/75| < volume_threshold := by
    rw [hgap]; exact not_lt.mpr hthr
  unfold analyze_volume_fight
  rw [h1, h2, if_neg hlt, if_pos (by decide : (1:ℚ)/2 > 11/75)]

/-- Claim C5 counterexample: missing metrics are not treated as 0 — with
speak_time 10 and every other metric missing, participant 1 wins the volume
contest (the absent presence duration defaults to 1), while the same bags
with the missing entries filled in as explicit zeros yield the draw outcome. -/
theorem missing_metric_not_zero_counterexample :
    determine_winner (1/10) .volume [("speak_time", .num 10)] [] = (some 1, .WIN, .LOSS) ∧
    determine_winner (1/10) .volume
        [("speak_time", .num 10), ("total_join_time", .num 0), ("average_volume", .num 0)]
        [("speak_time", .num 0), ("total_join_time", .num 0), ("average_volume", .num 0)] =
      (none, .DRAW, .DRAW) ∧
    determine_winner (1/10) .volume [("speak_time", .num 10)] [] ≠
      determine_winner (1/10) .volume
        [("speak_time", .num 10), ("total_join_time", .num 0), ("average_volume", .num 0)]
        [("speak_time", .num 0), ("total_join_time", .num 0), ("average_volume", .num 0)] := by
  decide

/-- Claim C5 amended: determine_winner is total (never raises) and for every
threshold, contest type (including unrecognized ones) and pair of bags
returns exactly one of the three consistent outcomes, an unknown contest
type always yielding the no-winner draw; but the failure policy is not
treat-as-0: a malformed presence duration makes the whole timing analysis
return the draw outcome, and a missing presence duration defaults to 1 in
the activity score (see the counterexample). -/
theorem determine_winner_consistent :
    (∀ (volume_threshold : ℚ) (fight_type : FightTypeValue) (m1 m2 : Metrics),
      determine_winner volume_threshold fight_type m1 m2 = (none, .DRAW, .DRAW) ∨
      determine_winner volume_threshold fight_type m1 m2 = (some 1, .WIN, .LOSS) ∨
      determine_winner volume_threshold fight_type m1 m2 = (some 2, .LOSS, .WIN)) ∧
    (∀ (volume_threshold : ℚ) (s : String) (m1 m2 : Metrics),
      determine_winner volume_threshold (.unknown s) m1 m2 = (none, .DRAW, .DRAW)) ∧
    (∀ (volume_threshold : ℚ) (m1 m2 : Metrics),
      mget m1 "total_join_time" (.num 0) = .other →
      determine_winner volume_threshold .timing m1 m2 = (none, .DRAW, .DRAW)) := by
  refine ⟨?_, fun _ _ _ _ => rfl, ?_⟩
  · intro volume_threshold fight_type m1 m2
    cases fight_type with
    | timing =>
      cases hm1 : mget m1 "total_join_time" (.num 0) with
      | other =>
        simp [determine_winner, analyze_timing_fight, hm1]
      | num q1 =>
        cases hm2 : mget m2 "total_join_time" (.num 0) with
        | other => simp [determine_winner, analyze_timing_fight, hm1, hm2]
        | num q2 =>
          simp only [determine_winner, analyze_timing_fight, hm1, hm2]
          split_ifs <;> simp
    | volume =>
      simp only [determine_winner, analyze_volume_fight]
      split_ifs <;> simp
    | unknown s => simp [determine_winner]
  · intro volume_threshold m1 m2 h
    simp [determine_winner, analyze_timing_fight, h]

/-- Claim C2 counterexample: for a TIMING contest whose last-sampled bags
hold join times 100 and 103, the finalization persists a win for participant
2 (strict comparison, no draw band), while WinnerDetector.determine_winner
on the same bags returns the draw outcome (it reads total_join_time, absent
from the sampled bags): the persisted result pair differs from the
detector's. -/
theorem manager_detector_disagree_counterexample :
    manager_compute_winner 1 2 (some .TIMING) (monitor_bag 100 0 0) (monitor_bag 103 0 0) =
      .decided (some 2) .LOSS .WIN ∧
    determine_winner (1/10) .timing (monitor_bag 100 0 0) (monitor_bag 103 0 0) =
      (none, .DRAW, .DRAW) ∧
    results_of (manager_compute_winner 1 2 (some .TIMING) (monitor_bag 100 0 0)
        (monitor_bag 103 0 0)) ≠
      some ((determine_winner (1/10) .timing (monitor_bag 100 0 0) (monitor_bag 103 0 0)).2.1,
        (determine_winner (1/10) .timing (monitor_bag 100 0 0) (monitor_bag 103 0 0)).2.2) := by
  decide

/-- Claim C2 amended: the outcome `_end_fight_with_results` persists is its
own inline computation, not the Winner Determination component's.  On bags
of the shape the monitoring loop samples (keys join_time, speak_time,
volume_sum): the detector's timing analysis always returns the draw outcome
(it reads the absent total_join_time key), whereas the finalization decides
TIMING by strict comparison of join_time and VOLUME by strict comparison of
the speak_time·volume_sum products, drawing only on exact ties. -/
theorem persisted_outcome_is_inline_computation (challenger_id opponent_id : Int)
    (j1 s1 v1 j2 s2 v2 : ℚ) :
    analyze_timing_fight (monitor_bag j1 s1 v1) (monitor_bag j2 s2 v2) =
      (none, .DRAW, .DRAW) ∧
    manager_compute_winner challenger_id opponent_id (some .TIMING)
        (monitor_bag j1 s1 v1) (monitor_bag j2 s2 v2) =
      (if j1 > j2 then .decided (some challenger_id) .WIN .LOSS
       else if j2 > j1 then .decided (some opponent_id) .LOSS .WIN
       else .decided none .DRAW .DRAW) ∧
    manager_compute_winner challenger_id opponent_id (some .VOLUME)
        (monitor_bag j1 s1 v1) (monitor_bag j2 s2 v2) =
      (if s1 * v1 > s2 * v2 then .decided (some challenger_id) .WIN .LOSS
       else if s2 * v2 > s1 * v1 then .decided (some opponent_id) .LOSS .WIN
       else .decided none .DRAW .DRAW) := by
  refine ⟨?_, rfl, rfl⟩
  have ht : analyze_timing_fight (monitor_bag j1 s1 v1) (monitor_bag j2 s2 v2) =
      if |(0:ℚ) - 0| < 5 then (none, .DRAW, .DRAW)
      else if (0:ℚ) > 0 then (some 1, .WIN, .LOSS) else (some 2, .LOSS, .WIN) := rfl
  rw [ht, if_pos (by decide : |(0:ℚ) - 0| < 5)]

/-- Claim C8 counterexample: a reachable machine at ACCEPTED (driven
CREATED→SENT→ACCEPTED) that has dwelled 1000 > 3·30 units is not transitioned
to EXPIRED by the sweep — the transition is rejected and the discarded
machine still reads ACCEPTED. -/
theorem expire_from_accepted_counterexample :
    Reachable sm_accepted.current_state ∧
    get_time_in_state sm_accepted 1000 > 3 * 30 ∧
    (expired_machine sm_accepted 1000).current_state = .ACCEPTED ∧
    (expired_machine sm_accepted 1000).current_state ≠ .EXPIRED := by
  refine ⟨?_, by decide, by decide, by decide⟩
  have h : sm_accepted.current_state = .ACCEPTED := by decide
  rw [h]
  have hsent : Reachable ChallengeState.SENT :=
    Reachable.step Reachable.init (by decide)
  exact Reachable.step hsent (by decide)

/-- Claim C8 amended: an in-memory entry whose dwell time exceeds 3× the
acceptance timeout is always removed from the active table by the sweep, but
its machine ends at EXPIRED only when the transition attempt is legal — from
SENT or PARTICIPANTS_JOINING (or the machine was already at EXPIRED); from
every other state the transition is rejected and the machine is discarded in
its previous state. -/
theorem expire_sweep_removes_entry (challenge_timeout now : Nat) (id : String)
    (sm : ChallengeStateMachine) (tbl : List (String × ChallengeStateMachine))
    (hdwell : get_time_in_state sm now > 3 * challenge_timeout) :
    (id, sm) ∉ expire_old_challenges_mem challenge_timeout now tbl ∧
    ((expired_machine sm now).current_state = .EXPIRED ↔
      (sm.current_state = .SENT ∨ sm.current_state = .PARTICIPANTS_JOINING ∨
        sm.current_state = .EXPIRED)) := by
  constructor
  · intro hmem
    have hp := (List.mem_filter.mp hmem).2
    simp [hdwell] at hp
  · have key : (expired_machine sm now).current_state =
        if ChallengeState.EXPIRED ∈ VALID_TRANSITIONS sm.current_state then .EXPIRED
        else sm.current_state := transition_result_state sm now .EXPIRED
    rw [key]
    cases h : sm.current_state <;> simp [h, VALID_TRANSITIONS]

/-- Witness for the sweep theorem at a concrete over-dwelled machine: a
machine at SENT stamped at time 0, swept at time 1000 with a 30-unit
acceptance timeout, is removed and does reach EXPIRED. -/
theorem expire_sweep_removes_entry_witness :
    (("c", mkStateMachine .SENT 0) ∉
      expire_old_challenges_mem 30 1000 [("c", mkStateMachine .SENT 0)]) ∧
    ((expired_machine (mkStateMachine .SENT 0) 1000).current_state = .EXPIRED ↔
      ((mkStateMachine .SENT 0).current_state = .SENT ∨
        (mkStateMachine .SENT 0).current_state = .PARTICIPANTS_JOINING ∨
        (mkStateMachine .SENT 0).current_state = .EXPIRED)) :=
  expire_sweep_removes_entry 30 1000 "c" (mkStateMachine .SENT 0)
    [("c", mkStateMachine .SENT 0)] (by decide)

end ArchFairFight
